import Mathlib

/-!
Shallow embedding of the `perftest` parallel-upload benchmark driver.

The repository holds two variants of the same ~128-line Go program:
`parallel-upload-download/parallel-put.go` (NODE-namespaced object names,
one semicolon-delimited machine-parsable output line) and an unnamed sibling
variant (plain `object<i>` names, human-readable output, and a defective
metadata loop).  Both parse `CONCURRENCY` from the environment with
`strconv.Atoi`, build the object-name list, build the payload with
`bytes.Repeat`, fan out one upload goroutine per name (panicking on any
upload error), and print throughput (objects/sec) and bandwidth (MB/sec).

Machine floats are modelled as rationals, byte slices as `List UInt8`,
Go maps as association lists with overwrite-on-insert, and the process
outcome as an explicit sum type.
-/

namespace Perftest

/-! ### Decimal digits: `Nat.repr` has a left inverse, hence is injective

`fmt.Sprintf("%d", i)` / `%v` on a nonnegative integer is the plain decimal
rendering, which the embedding writes as `Nat.repr`.  Distinctness of the
generated object names reduces to injectivity of `Nat.repr`, proved here by
exhibiting the base-10 read-back as a left inverse.
-/

/-- One step of reading a decimal string back to a number: the accumulator
is shifted and the char's ASCII value (minus 48) appended. -/
def readNatStep (a : Nat) (c : Char) : Nat := a * 10 + (c.toNat - 48)

/-- Read a list of decimal digit characters back to the number it denotes. -/
def readNat (cs : List Char) : Nat := cs.foldl readNatStep 0

/-- Number of decimal digits of `n` (1 for `n < 10`). -/
def numDigits (n : Nat) : Nat :=
  if n < 10 then 1 else numDigits (n / 10) + 1
termination_by n
decreasing_by exact Nat.div_lt_self (by omega) (by omega)

theorem digitChar_toNat_sub (k : Nat) (h : k < 10) :
    (Nat.digitChar k).toNat - 48 = k := by
  interval_cases k <;> rfl

theorem toDigitsCore_foldl (n : Nat) : ∀ (fuel : Nat) (a : Nat) (ds : List Char),
    n < fuel →
    (Nat.toDigitsCore 10 fuel n ds).foldl readNatStep a
      = ds.foldl readNatStep (a * 10 ^ numDigits n + n) := by
  induction n using Nat.strong_induction_on with
  | _ n ih =>
    intro fuel a ds hfuel
    match fuel with
    | 0 => omega
    | f + 1 =>
      show (if n / 10 = 0 then Nat.digitChar (n % 10) :: ds
            else Nat.toDigitsCore 10 f (n / 10) (Nat.digitChar (n % 10) :: ds)).foldl
              readNatStep a
          = ds.foldl readNatStep (a * 10 ^ numDigits n + n)
      by_cases h : n / 10 = 0
      · have hn : n < 10 := by omega
        have hmod : n % 10 = n := Nat.mod_eq_of_lt hn
        have hdig : numDigits n = 1 := by rw [numDigits, if_pos hn]
        simp only [if_pos h, List.foldl_cons, hdig, pow_one]
        rw [readNatStep, hmod, digitChar_toNat_sub n hn]
      · have hn10 : 10 ≤ n := by omega
        have hlt : n / 10 < n := Nat.div_lt_self (by omega) (by omega)
        have hfuel' : n / 10 < f := by omega
        rw [if_neg h, ih (n / 10) hlt f a (Nat.digitChar (n % 10) :: ds) hfuel',
          List.foldl_cons]
        have hdig : numDigits n = numDigits (n / 10) + 1 := by
          rw [numDigits, if_neg (by omega)]
        rw [hdig, readNatStep, digitChar_toNat_sub (n % 10) (Nat.mod_lt n (by omega))]
        congr 1
        have hsplit : (a * 10 ^ numDigits (n / 10) + n / 10) * 10 + n % 10
            = a * 10 ^ (numDigits (n / 10) + 1) + (n / 10 * 10 + n % 10) := by ring
        rw [hsplit, Nat.div_add_mod']

theorem readNat_repr (n : Nat) : readNat (Nat.repr n).data = n := by
  have h := toDigitsCore_foldl n (n + 1) 0 [] (Nat.lt_succ_self n)
  simpa [readNat, Nat.repr, Nat.toDigits, List.asString] using h

theorem repr_injective : Function.Injective Nat.repr := by
  intro m n h
  have hm := readNat_repr m
  have hn := readNat_repr n
  rw [h, hn] at hm
  exact hm.symm

/-! ### Configuration parsing: `strconv.Atoi`

`main` reads `CONCURRENCY` with `os.Getenv` (which yields `""` when the
variable is unset) and parses it with `strconv.Atoi`; on error it calls
`log.Fatalln` (lines 107–112 of `parallel-put.go`, 106–110 of the unnamed
variant).  `Atoi` accepts an optional sign followed by at least one ASCII
decimal digit and fails on empty input, any other character, or a value
outside the 64-bit signed range.
-/

def int64Max : Int := 2 ^ 63 - 1

def int64Min : Int := -(2 ^ 63)

def isDigit (c : Char) : Bool := decide ('0' ≤ c) && decide (c ≤ '9')

/-- Parse a nonempty all-digit character list to its value. -/
def parseDigits (cs : List Char) : Option Nat :=
  if cs.isEmpty then none
  else if cs.all isDigit then some (readNat cs) else none

/-- Model of Go `strconv.Atoi`: `none` exactly when Go returns a non-nil
error (empty string, stray characters, or 64-bit signed overflow). -/
def goAtoi (s : String) : Option Int :=
  match s.data with
  | [] => none
  | '+' :: rest => (parseDigits rest).bind fun n =>
      if (n : Int) ≤ int64Max then some (n : Int) else none
  | '-' :: rest => (parseDigits rest).bind fun n =>
      if int64Min ≤ -(n : Int) then some (-(n : Int)) else none
  | cs => (parseDigits cs).bind fun n =>
      if (n : Int) ≤ int64Max then some (n : Int) else none

/-! ### Object names

`parallel-put.go` lines 114–117: `for i := 0; i < conc; i++ {
objectNames = append(objectNames, fmt.Sprintf("object-%s-%d", nodeNumber, i+1)) }`.
The unnamed variant (lines 112–115) uses `fmt.Sprintf("object%d", i+1)`.
-/

def objectNamesNode (nodeNumber : String) (conc : Int) : List String :=
  (List.range conc.toNat).map fun i => "object-" ++ nodeNumber ++ "-" ++ Nat.repr (i + 1)

def objectNamesSimple (conc : Int) : List String :=
  (List.range conc.toNat).map fun i => "object" ++ Nat.repr (i + 1)

/-! ### Payload

Line 119: `var data = bytes.Repeat([]byte("a"), *objectSize)`.  Go's
`bytes.Repeat(b, count)` panics when `count < 0` and otherwise returns
`count` concatenated copies of `b`; `[]byte("a")` is the single byte 97.
-/

def goBytesRepeat (b : List UInt8) (count : Int) : Option (List UInt8) :=
  if count < 0 then none
  else some (List.replicate count.toNat b).flatten

/-! ### Statistics

Lines 124–128: `totalSize := conc * *objectSize` (64-bit signed wraparound
product), `seconds := float64(elapsed) / float64(time.Second)`, throughput
`float64(conc)/seconds`, bandwidth `float64(totalSize)/seconds/1024/1024`.
Float64 arithmetic is modelled over ℚ.
-/

/-- Product of two Go `int`s: 64-bit two's-complement wraparound. -/
def goMulInt64 (a b : Int) : Int := Int.bmod (a * b) (2 ^ 64)

def totalSize (conc objectSize : Int) : Int := goMulInt64 conc objectSize

def throughput (conc : Int) (seconds : ℚ) : ℚ := (conc : ℚ) / seconds

def bandwidth (conc objectSize : Int) (seconds : ℚ) : ℚ :=
  ((totalSize conc objectSize : Int) : ℚ) / seconds / 1024 / 1024

theorem goMulInt64_eq_mul (a b : Int) (h1 : int64Min ≤ a * b) (h2 : a * b ≤ int64Max) :
    goMulInt64 a b = a * b := by
  rw [goMulInt64, Int.bmod]
  simp only [int64Min, int64Max] at h1 h2
  norm_num
  omega

/-! ### Fan-out and process outcome

`parallelUploads` (lines 53–65) launches one goroutine per object name and
`panic`s inside any goroutine whose `uploadBlob` call returns an error; a
panicking goroutine crashes the whole process, so the run reaches the
statistics line iff every upload returned `nil`.  An upload's outcome is
abstracted as `upload : String → Option E` (`none` = success), and the
process-level result of the fan-out as the first error found, if any.
-/

def parallelUploads (upload : String → Option E) (objectNames : List String) :
    Option E :=
  objectNames.findSome? upload

/-- Process-level outcome of one `main` invocation. -/
inductive Outcome (E : Type) where
  | fatalConfig
  | panicPayload
  | panicUpload (e : E)
  | printed (throughputVal bandwidthVal : ℚ)
deriving DecidableEq, Repr

/-- One run of `main`, with the generated names, the payload buffer, and the
names for which an upload goroutine was launched recorded alongside the
outcome. -/
structure RunResult (E : Type) where
  outcome : Outcome E
  names : List String
  payload : List UInt8
  uploadsLaunched : List String
deriving DecidableEq, Repr

/-- Model of `main` in `parallel-put.go` (lines 104–129): parse
`CONCURRENCY` (fatal on error, before any name, payload or upload), build
the object names, build the payload (panic on negative size), fan out the
uploads (panic on the first error), then print the statistics line.
`seconds` is the measured elapsed wall-clock duration in seconds. -/
def mainRun (concEnv nodeEnv : String) (objectSize : Int)
    (upload : String → Option E) (seconds : ℚ) : RunResult E :=
  match goAtoi concEnv with
  | none => ⟨.fatalConfig, [], [], []⟩
  | some conc =>
    let names := objectNamesNode nodeEnv conc
    match goBytesRepeat [97] objectSize with
    | none => ⟨.panicPayload, names, [], []⟩
    | some data =>
      match parallelUploads upload names with
      | some e => ⟨.panicUpload e, names, data, names⟩
      | none =>
        ⟨.printed (throughput conc seconds) (bandwidth conc objectSize seconds),
          names, data, names⟩

/-! ### Metadata

`uploadBlob` in `parallel-put.go` (lines 80–86) draws one random string of
length `metaSize` and inserts it under keys `test-metadata-key-<i>` for
`i = 1..metaCount`.  `rand.Intn(len(letterBytes))` is abstracted as an
arbitrary stream `g : Nat → Fin 52` of in-range indices; a Go map is an
association list whose insert overwrites an existing key.
-/

def letterBytes : String := "abcdefghijklmnopqrstuvwxyzABCDEFGHIJKLMNOPQRSTUVWXYZ"

theorem letterBytes_data_length : letterBytes.data.length = 52 := rfl

/-- `randStringBytes(n)` with the `rand.Intn(52)` draws supplied by `g`. -/
def randStringBytes (g : Nat → Fin 52) (n : Nat) : String :=
  String.mk ((List.range n).map fun i =>
    letterBytes.data.get ⟨(g i).val, by rw [letterBytes_data_length]; exact (g i).isLt⟩)

theorem randStringBytes_length (g : Nat → Fin 52) (n : Nat) :
    (randStringBytes g n).length = n := by
  show ((List.range n).map _).length = n
  rw [List.length_map, List.length_range]

/-- A Go map over string keys, as an association list; assignment to an
existing key overwrites in place, to a fresh key appends. -/
abbrev MetaMap := List (String × String)

def mapInsert (m : MetaMap) (key v : String) : MetaMap :=
  if m.any (fun p => p.1 == key) then
    m.map fun p => if p.1 == key then (key, v) else p
  else m ++ [(key, v)]

/-- Metadata construction of `uploadBlob` in `parallel-put.go` (lines
80–86): one shared value, keys `test-metadata-key-1 .. test-metadata-key-<metaCount>`. -/
def uploadBlobMeta (metadataValue : String) (metaCount : Int) : MetaMap :=
  (List.range' 1 metaCount.toNat).foldl
    (fun meta i => mapInsert meta ("test-metadata-key-" ++ Nat.repr i) metadataValue) []

/-- Metadata construction of `uploadBlob` in the unnamed variant (lines
80–84).  As written the Go does not compile (`metaCount.Value` on an `int`,
a `*string` stored into a `map[string]string`); read charitably per the
spec's §9 note, `metaCount.Value` is `metaCount` itself and the pointer
wrapper is dropped: the loop runs for `n = 0 .. metaCount`, draws a fresh
string of hard-coded length 1024 each pass, and always writes the single
key `test-metadata-key-<metaCount>`; `metaSize` is never consulted. -/
def uploadBlobMetaDefective (g : Nat → Nat → Fin 52) (metaCount metaSize : Int) :
    MetaMap :=
  (List.range (metaCount + 1).toNat).foldl
    (fun meta n =>
      mapInsert meta ("test-metadata-key-" ++ Int.repr metaCount)
        (randStringBytes (g n) 1024)) []

/-! ### Timestamps and the machine-parsable output line

Line 128 of `parallel-put.go`:
`fmt.Printf("PUT;%s;%s;%d;%d;%d;%s;%f;%f;%s;%s\n", nodeNumber, concurrency,
*objectSize, *metaCount, *metaSize, elapsed, throughput, bandwidth,
start.Format("2006-01-02T15:04:05.000Z"), time.Now().Format("2006-01-02T15:04:05.000Z"))`.
`start` is `time.Now().UTC()` (offset 0); the second `time.Now()` keeps the
process-local zone, and the layout's trailing `Z` is a literal character.
Go's `Format` renders the wall-clock fields of the time in its own zone, i.e.
of `unix-millis + offset`; civil-from-days is the standard proleptic
Gregorian conversion.
-/

def civilFromDays (z0 : Int) : Int × Int × Int :=
  let z := z0 + 719468
  let era := (if 0 ≤ z then z else z - 146096) / 146097
  let doe := z - era * 146097
  let yoe := (doe - doe / 1460 + doe / 36524 - doe / 146096) / 365
  let y := yoe + era * 400
  let doy := doe - (365 * yoe + yoe / 4 - yoe / 100)
  let mp := (5 * doy + 2) / 153
  let d := doy - (153 * mp + 2) / 5 + 1
  let m := mp + (if mp < 10 then 3 else -9)
  (y + (if m ≤ 2 then 1 else 0), m, d)

def pad2 (n : Int) : String :=
  if n < 10 then "0" ++ Int.repr n else Int.repr n

def pad3 (n : Int) : String :=
  if n < 10 then "00" ++ Int.repr n
  else if n < 100 then "0" ++ Int.repr n else Int.repr n

def pad4 (n : Int) : String :=
  if n < 10 then "000" ++ Int.repr n
  else if n < 100 then "00" ++ Int.repr n
  else if n < 1000 then "0" ++ Int.repr n else Int.repr n

/-- Render the layout `2006-01-02T15:04:05.000Z` for the wall clock that is
`wallMillis` milliseconds after the epoch's midnight; the trailing `Z` is a
literal of the layout, rendered regardless of the zone the wall clock is in. -/
def formatYMDHMSMilliZ (wallMillis : Int) : String :=
  let day := wallMillis / 86400000
  let msOfDay := wallMillis % 86400000
  let ymd := civilFromDays day
  let h := msOfDay / 3600000
  let mi := msOfDay % 3600000 / 60000
  let s := msOfDay % 60000 / 1000
  let ms := msOfDay % 1000
  pad4 ymd.1 ++ "-" ++ pad2 ymd.2.1 ++ "-" ++ pad2 ymd.2.2 ++ "T" ++
    pad2 h ++ ":" ++ pad2 mi ++ ":" ++ pad2 s ++ "." ++ pad3 ms ++ "Z"

/-- Go `t.Format` for a time with the given Unix instant and zone offset:
the zone's wall clock is the instant shifted by the offset. -/
def goTimeFormatMilliZ (unixMillis offsetMinutes : Int) : String :=
  formatYMDHMSMilliZ (unixMillis + offsetMinutes * 60000)

/-- `start.Format(...)`: `start := time.Now().UTC()`, so its offset is 0. -/
def startTimestampStr (startUnixMillis : Int) : String :=
  goTimeFormatMilliZ startUnixMillis 0

/-- `time.Now().Format(...)` at the end of the run: the time keeps the
process-local zone offset. -/
def endTimestampStr (endUnixMillis offsetMinutes : Int) : String :=
  goTimeFormatMilliZ endUnixMillis offsetMinutes

/-- The `fmt.Printf` line of `parallel-put.go` line 128, with the
already-rendered `%s`/`%f` operands passed through as strings. -/
def outputLine (nodeNumber concurrency : String) (objectSize metaCount metaSize : Int)
    (elapsedStr throughputStr bandwidthStr startStr endStr : String) : String :=
  "PUT;" ++ nodeNumber ++ ";" ++ concurrency ++ ";" ++ Int.repr objectSize ++ ";" ++
    Int.repr metaCount ++ ";" ++ Int.repr metaSize ++ ";" ++ elapsedStr ++ ";" ++
    throughputStr ++ ";" ++ bandwidthStr ++ ";" ++ startStr ++ ";" ++ endStr ++ "\n"

/-! ### Helper lemmas -/

theorem nameNode_inj (nodeNumber : String) : Function.Injective
    (fun i : Nat => "object-" ++ nodeNumber ++ "-" ++ Nat.repr (i + 1)) := by
  intro i j h
  simp only at h
  have hd := congrArg String.data h
  simp only [String.data_append] at hd
  have h1 : (Nat.repr (i + 1)).data = (Nat.repr (j + 1)).data :=
    List.append_cancel_left hd
  have h2 := repr_injective (String.ext h1)
  omega

theorem nameSimple_inj : Function.Injective
    (fun i : Nat => "object" ++ Nat.repr (i + 1)) := by
  intro i j h
  simp only at h
  have hd := congrArg String.data h
  simp only [String.data_append] at hd
  have h1 : (Nat.repr (i + 1)).data = (Nat.repr (j + 1)).data :=
    List.append_cancel_left hd
  have h2 := repr_injective (String.ext h1)
  omega

theorem metaKey_inj : Function.Injective
    (fun i : Nat => "test-metadata-key-" ++ Nat.repr i) := by
  intro i j h
  simp only at h
  have hd := congrArg String.data h
  simp only [String.data_append] at hd
  exact repr_injective (String.ext (List.append_cancel_left hd))

/-! ### C2: object-name generation -/

/-- C2: for every parsed concurrency `c ≥ 0`, both variants generate exactly
`c` object names, the names are pairwise distinct, and the name at 0-based
position `i` is the deterministic rendering of index `i+1` (with the NODE
identifier embedded, in the multi-node variant). -/
theorem objectNames_count_distinct (nodeNumber : String) (conc : Int) (h : 0 ≤ conc) :
    ((objectNamesNode nodeNumber conc).length : Int) = conc ∧
    (objectNamesNode nodeNumber conc).Nodup ∧
    (∀ i : Nat, i < conc.toNat →
      (objectNamesNode nodeNumber conc)[i]? =
        some ("object-" ++ nodeNumber ++ "-" ++ Nat.repr (i + 1))) ∧
    ((objectNamesSimple conc).length : Int) = conc ∧
    (objectNamesSimple conc).Nodup ∧
    (∀ i : Nat, i < conc.toNat →
      (objectNamesSimple conc)[i]? = some ("object" ++ Nat.repr (i + 1))) := by
  refine ⟨?_, ?_, ?_, ?_, ?_, ?_⟩
  · simp [objectNamesNode, Int.toNat_of_nonneg h]
  · exact (List.nodup_range _).map (nameNode_inj nodeNumber)
  · intro i hi
    simp [objectNamesNode, List.getElem?_map, List.getElem?_range hi]
  · simp [objectNamesSimple, Int.toNat_of_nonneg h]
  · exact (List.nodup_range _).map nameSimple_inj
  · intro i hi
    simp [objectNamesSimple, List.getElem?_map, List.getElem?_range hi]

/-- C2 witness: concrete run with NODE "node7" and concurrency 2. -/
theorem objectNames_count_distinct_witness :
    ((objectNamesNode "node7" 2).length : Int) = 2 ∧
    (objectNamesNode "node7" 2).Nodup ∧
    (objectNamesNode "node7" 2)[0]? = some "object-node7-1" ∧
    (objectNamesSimple 2).Nodup ∧
    objectNamesNode "node7" 2 = ["object-node7-1", "object-node7-2"] := by
  have h := objectNames_count_distinct "node7" 2 (by norm_num)
  exact ⟨h.1, h.2.1, h.2.2.1 0 (by decide), h.2.2.2.2.1, by decide⟩

/-! ### C5: fatal configuration error comes first -/

/-- C5: when `CONCURRENCY` is unset (`os.Getenv` yields `""`) or does not
parse as an integer, the run terminates fatally with no object name
generated, no payload built, and no upload launched. -/
theorem config_error_aborts_early {E : Type} (concEnv nodeEnv : String)
    (objectSize : Int) (upload : String → Option E) (seconds : ℚ)
    (h : goAtoi concEnv = none) :
    mainRun concEnv nodeEnv objectSize upload seconds
      = ⟨.fatalConfig, [], [], []⟩ := by
  unfold mainRun
  rw [h]

/-- C5 witness: both the unset value `""` and the non-numeric `"abc"` fail
to parse and abort the run before any work. -/
theorem config_error_aborts_early_witness :
    goAtoi "" = none ∧ goAtoi "abc" = none ∧
    mainRun "" "n" 4 (fun _ : String => (none : Option Unit)) 1
      = ⟨.fatalConfig, [], [], []⟩ ∧
    mainRun "abc" "n" 4 (fun _ : String => (none : Option Unit)) 1
      = ⟨.fatalConfig, [], [], []⟩ :=
  ⟨by decide, by decide,
    config_error_aborts_early "" "n" 4 _ 1 (by decide),
    config_error_aborts_early "abc" "n" 4 _ 1 (by decide)⟩

/-! ### C10: negative `-size` panics in payload generation -/

/-- C10: for every parsed concurrency and negative `-size`, `bytes.Repeat`
panics, so the run crashes after name generation but before any upload is
launched, rather than reporting a configuration error. -/
theorem negative_size_panics {E : Type} (concEnv nodeEnv : String)
    (objectSize : Int) (upload : String → Option E) (seconds : ℚ) (conc : Int)
    (hparse : goAtoi concEnv = some conc) (hsize : objectSize < 0) :
    mainRun concEnv nodeEnv objectSize upload seconds
      = ⟨.panicPayload, objectNamesNode nodeEnv conc, [], []⟩ := by
  unfold mainRun
  rw [hparse]
  simp only [goBytesRepeat, if_pos hsize]

/-- C10 witness: `CONCURRENCY="5"`, `-size -1`. -/
theorem negative_size_panics_witness :
    goAtoi "5" = some 5 ∧ (-1 : Int) < 0 ∧
    mainRun "5" "n" (-1) (fun _ : String => (none : Option Unit)) 1
      = ⟨.panicPayload, objectNamesNode "n" 5, [], []⟩ :=
  ⟨by decide, by decide,
    negative_size_panics "5" "n" (-1) _ 1 5 (by decide) (by decide)⟩

/-! ### C1: throughput and bandwidth arithmetic -/

/-- C1: in the absence of 64-bit overflow of `conc * *objectSize`, the
reported throughput is `conc / seconds` objects/sec and the reported
bandwidth is `conc * objectSize / seconds / 1048576` MB/sec, as pure
functions of concurrency, size and elapsed seconds. -/
theorem throughput_bandwidth_formula (conc objectSize : Int) (seconds : ℚ)
    (h1 : 0 ≤ conc) (h2 : 0 ≤ objectSize) (h3 : conc * objectSize ≤ int64Max) :
    throughput conc seconds = (conc : ℚ) / seconds ∧
    bandwidth conc objectSize seconds
      = (conc : ℚ) * (objectSize : ℚ) / seconds / 1048576 := by
  refine ⟨rfl, ?_⟩
  rw [bandwidth, totalSize,
    goMulInt64_eq_mul conc objectSize
      (le_trans (by norm_num [int64Min]) (mul_nonneg h1 h2)) h3]
  push_cast
  rw [div_div, div_div, div_div]
  norm_num

/-- C1 witness: concurrency 10, size 1 MiB, elapsed 2 s gives 5.0 objs/sec
and 5.0 MB/sec. -/
theorem throughput_bandwidth_formula_witness :
    throughput 10 2 = 5 ∧ bandwidth 10 1048576 2 = 5 := by
  have h := throughput_bandwidth_formula 10 1048576 2 (by norm_num) (by norm_num)
    (by norm_num [int64Max])
  refine ⟨?_, ?_⟩
  · rw [h.1]; norm_num
  · rw [h.2]; norm_num

/-! ### C4: any upload failure aborts the run, report only on full success -/

theorem parallelUploads_eq_none_iff {E : Type} (upload : String → Option E)
    (names : List String) :
    parallelUploads upload names = none ↔ ∀ name ∈ names, upload name = none :=
  List.findSome?_eq_none_iff

theorem parallelUploads_eq_some {E : Type} (upload : String → Option E)
    (names : List String) (e : E) (h : parallelUploads upload names = some e) :
    ∃ name ∈ names, upload name = some e :=
  List.exists_of_findSome?_eq_some h

/-- C4: once the configuration parses and the payload size is nonnegative,
the statistics line is printed iff every launched upload succeeded; a
failing upload makes the process die in a panic carrying that task's error,
and no report is printed. -/
theorem report_iff_uploads_ok {E : Type} (concEnv nodeEnv : String)
    (objectSize : Int) (upload : String → Option E) (seconds : ℚ) (conc : Int)
    (hparse : goAtoi concEnv = some conc) (hsize : 0 ≤ objectSize) :
    ((∃ t b, (mainRun concEnv nodeEnv objectSize upload seconds).outcome
        = .printed t b) ↔
      ∀ name ∈ objectNamesNode nodeEnv conc, upload name = none) ∧
    (∀ e, (mainRun concEnv nodeEnv objectSize upload seconds).outcome
        = .panicUpload e →
      ∃ name ∈ objectNamesNode nodeEnv conc, upload name = some e) ∧
    ((∃ name ∈ objectNamesNode nodeEnv conc, upload name ≠ none) →
      ∀ t b, (mainRun concEnv nodeEnv objectSize upload seconds).outcome
        ≠ .printed t b) := by
  have hneg : ¬ objectSize < 0 := by omega
  simp only [mainRun, hparse, goBytesRepeat, if_neg hneg]
  cases hfind : parallelUploads upload (objectNamesNode nodeEnv conc) with
  | none =>
    refine ⟨⟨fun _ => (parallelUploads_eq_none_iff upload _).mp hfind,
        fun _ => ⟨_, _, rfl⟩⟩, ?_, ?_⟩
    · intro e he
      exact absurd he (by simp)
    · rintro ⟨name, hmem, hne⟩
      exact absurd ((parallelUploads_eq_none_iff upload _).mp hfind name hmem) hne
  | some e =>
    refine ⟨⟨?_, ?_⟩, ?_, ?_⟩
    · rintro ⟨t, b, habs⟩
      exact absurd habs (by simp)
    · intro hall
      have := (parallelUploads_eq_none_iff upload _).mpr hall
      rw [hfind] at this
      exact absurd this (by simp)
    · intro e' he'
      have : e = e' := by
        have := he'
        simp only [Outcome.panicUpload.injEq] at this
        exact this
      exact this ▸ parallelUploads_eq_some upload _ e hfind
    · intro _ t b habs
      exact absurd habs (by simp)

/-- C4 witness: two names, the second upload fails, the process panics with
that error and the report iff-condition is falsified. -/
theorem report_iff_uploads_ok_witness :
    goAtoi "2" = some 2 ∧
    ((∃ t b, (mainRun "2" "x" 4
        (fun s => if s = "object-x-2" then some "boom" else none) 1).outcome
        = Outcome.printed t b) ↔
      ∀ name ∈ objectNamesNode "x" 2,
        (if name = "object-x-2" then some "boom" else none) = none) ∧
    (mainRun "2" "x" 4
        (fun s => if s = "object-x-2" then some "boom" else none) 1).outcome
      = Outcome.panicUpload "boom" :=
  ⟨by decide,
    (report_iff_uploads_ok "2" "x" 4 _ 1 2 (by decide) (by norm_num)).1,
    by decide⟩

/-! ### Helper: runs with nonpositive parsed concurrency -/

theorem mainRun_nonpos_conc {E : Type} (concEnv nodeEnv : String)
    (objectSize : Int) (upload : String → Option E) (seconds : ℚ) (conc : Int)
    (hparse : goAtoi concEnv = some conc) (hconc : conc ≤ 0)
    (hsize : 0 ≤ objectSize) :
    mainRun concEnv nodeEnv objectSize upload seconds
      = ⟨.printed (throughput conc seconds) (bandwidth conc objectSize seconds),
          [], (List.replicate objectSize.toNat [97]).flatten, []⟩ := by
  have hnames : objectNamesNode nodeEnv conc = [] := by
    rw [objectNamesNode]
    have h0 : conc.toNat = 0 := by omega
    rw [h0]
    rfl
  have hneg : ¬ objectSize < 0 := by omega
  simp only [mainRun, hparse, goBytesRepeat, if_neg hneg, hnames, parallelUploads,
    List.findSome?_nil]

/-! ### C6: nonpositive CONCURRENCY is accepted, not fatal -/

/-- C6 counterexample: `CONCURRENCY="0"` parses successfully and the run
proceeds all the way to the printed statistics line — no fatal
termination. -/
theorem conc_zero_not_fatal :
    goAtoi "0" = some 0 ∧
    mainRun "0" "n" 4 (fun _ : String => (none : Option Unit)) 1
      = ⟨.printed 0 0, [], [97, 97, 97, 97], []⟩ := by
  constructor
  · decide
  · have hrun := mainRun_nonpos_conc "0" "n" 4
      (fun _ : String => (none : Option Unit)) 1 0 (by decide) le_rfl (by norm_num)
    rw [hrun]
    have ht : throughput 0 1 = 0 := by norm_num [throughput]
    have hb : bandwidth 0 4 1 = 0 := by
      have h0 : totalSize 0 4 = 0 := by decide
      norm_num [bandwidth, h0]
    rw [ht, hb]
    rfl

/-- C6 amended: only a `CONCURRENCY` that fails to parse is fatal; every
parsed value `conc ≤ 0` is accepted, the name loop body never runs, no
upload is launched, and the statistics line is printed. -/
theorem nonpositive_conc_proceeds {E : Type} (concEnv nodeEnv : String)
    (objectSize : Int) (upload : String → Option E) (seconds : ℚ) (conc : Int)
    (hparse : goAtoi concEnv = some conc) (hconc : conc ≤ 0)
    (hsize : 0 ≤ objectSize) :
    mainRun concEnv nodeEnv objectSize upload seconds
      = ⟨.printed (throughput conc seconds) (bandwidth conc objectSize seconds),
          [], (List.replicate objectSize.toNat [97]).flatten, []⟩ :=
  mainRun_nonpos_conc concEnv nodeEnv objectSize upload seconds conc hparse hconc hsize

/-- C6 amended witness: `CONCURRENCY="-3"` proceeds with zero uploads. -/
theorem nonpositive_conc_proceeds_witness :
    goAtoi "-3" = some (-3) ∧
    mainRun "-3" "n" 4 (fun _ : String => (none : Option Unit)) 1
      = ⟨.printed (throughput (-3) 1) (bandwidth (-3) 4 1), [], [97, 97, 97, 97], []⟩ :=
  ⟨by decide,
    (nonpositive_conc_proceeds "-3" "n" 4 _ 1 (-3) (by decide) (by norm_num)
      (by norm_num)).trans (by rfl)⟩

/-! ### C8: a zero-concurrency run is safe -/

/-- C8: when `CONCURRENCY` parses as 0 the run generates no name, launches
no upload, the `WaitGroup` join is over the empty list, and for any
positive (arbitrarily small) elapsed duration the printed throughput and
bandwidth are both exactly 0 — no division crash. -/
theorem conc_zero_run {E : Type} (concEnv nodeEnv : String) (objectSize : Int)
    (upload : String → Option E) (seconds : ℚ)
    (hparse : goAtoi concEnv = some 0) (hsize : 0 ≤ objectSize)
    (hsec : 0 < seconds) :
    objectNamesNode nodeEnv 0 = [] ∧
    parallelUploads upload (objectNamesNode nodeEnv 0) = none ∧
    mainRun concEnv nodeEnv objectSize upload seconds
      = ⟨.printed 0 0, [], (List.replicate objectSize.toNat [97]).flatten, []⟩ := by
  have hnames : objectNamesNode nodeEnv 0 = [] := rfl
  refine ⟨hnames, by rw [hnames]; rfl, ?_⟩
  have hrun := mainRun_nonpos_conc concEnv nodeEnv objectSize upload seconds 0
    hparse le_rfl hsize
  rw [hrun]
  have ht : throughput 0 seconds = 0 := by
    rw [throughput]
    norm_num
  have hb : bandwidth 0 objectSize seconds = 0 := by
    have h0 : totalSize 0 objectSize = 0 := by
      rw [totalSize, goMulInt64_eq_mul 0 objectSize (by norm_num [int64Min])
        (by norm_num [int64Max]), zero_mul]
    rw [bandwidth, h0]
    norm_num
  rw [ht, hb]

/-- C8 witness: `CONCURRENCY="0"`, 1 MiB size, elapsed 1/1000 s. -/
theorem conc_zero_run_witness :
    goAtoi "0" = some 0 ∧ (0 : ℚ) < 1 / 1000 ∧
    (mainRun "0" "n" 4 (fun _ : String => (none : Option Unit)) (1 / 1000)).outcome
      = Outcome.printed 0 0 ∧
    (mainRun "0" "n" 4 (fun _ : String => (none : Option Unit)) (1 / 1000)).uploadsLaunched
      = [] :=
  ⟨by decide, by norm_num,
    by rw [(conc_zero_run "0" "n" 4 _ (1 / 1000) (by decide) (by norm_num)
        (by norm_num)).2.2],
    by rw [(conc_zero_run "0" "n" 4 _ (1 / 1000) (by decide) (by norm_num)
        (by norm_num)).2.2]⟩

/-! ### C9: payload generation -/

theorem flatten_replicate_single {α : Type} (a : α) (n : Nat) :
    (List.replicate n [a]).flatten = List.replicate n a := by
  induction n with
  | zero => rfl
  | succ n ih => simp [List.replicate_succ, ih]

/-- C9: for every `-size ≥ 0` the payload buffer is produced (no panic),
has length exactly `size`, and every byte is the fixed filler `'a'` = 97;
`main` builds it once, before the fan-out. -/
theorem payload_length_fill (objectSize : Int) (h : 0 ≤ objectSize) :
    goBytesRepeat [97] objectSize
      = some (List.replicate objectSize.toNat (97 : UInt8)) ∧
    ((List.replicate objectSize.toNat (97 : UInt8)).length : Int) = objectSize ∧
    ∀ b ∈ List.replicate objectSize.toNat (97 : UInt8), b = 97 := by
  refine ⟨?_, ?_, ?_⟩
  · rw [goBytesRepeat, if_neg (by omega), flatten_replicate_single]
  · simp [Int.toNat_of_nonneg h]
  · intro b hb
    exact List.eq_of_mem_replicate hb

/-- C9 witness: size 3 yields exactly `[97, 97, 97]`. -/
theorem payload_length_fill_witness :
    goBytesRepeat [97] 3 = some (List.replicate (Int.toNat 3) (97 : UInt8)) ∧
    List.replicate (Int.toNat 3) (97 : UInt8) = [97, 97, 97] :=
  ⟨(payload_length_fill 3 (by norm_num)).1, by decide⟩

/-! ### C3: metadata shape, and the defective loop of the unnamed variant -/

/-- A degenerate `rand.Intn(52)` stream that always draws index 0 (`'a'`),
used to evaluate the metadata builders at concrete inputs. -/
def zeroDraws : Nat → Fin 52 := fun _ => ⟨0, by decide⟩

def zeroDrawsTwo : Nat → Nat → Fin 52 := fun _ _ => ⟨0, by decide⟩

/-- C3: at `meta-count = 2`, `meta-size = 16`, the `parallel-put.go`
metadata map has exactly the claimed shape — two entries keyed
`test-metadata-key-1`, `test-metadata-key-2`, every value of length 16 —
while the unnamed variant's loop (which does not even compile as written)
collapses to the single key `test-metadata-key-2` whose value has the
hard-coded length 1024, refuting the claim for that variant. -/
theorem metadata_defective_eval :
    (uploadBlobMeta (randStringBytes zeroDraws 16) 2).map Prod.fst
      = ["test-metadata-key-1", "test-metadata-key-2"] ∧
    (∀ p ∈ uploadBlobMeta (randStringBytes zeroDraws 16) 2, p.2.length = 16) ∧
    (uploadBlobMetaDefective zeroDrawsTwo 2 16).map Prod.fst
      = ["test-metadata-key-2"] ∧
    (∀ p ∈ uploadBlobMetaDefective zeroDrawsTwo 2 16, p.2.length = 1024) ∧
    (uploadBlobMetaDefective zeroDrawsTwo 2 16).length ≠ 2 := by
  set_option maxRecDepth 10000 in decide

/-! ### C7: the machine-parsable line, and the end timestamp's zone -/

/-- C7: the single output line is semicolon-delimited with fields in the
order operation tag, node, concurrency, object size, metadata count,
metadata size, elapsed, throughput, bandwidth, start, end; the layout has
millisecond precision with a literal `Z`.  The start timestamp is rendered
from the UTC clock, but the end timestamp is rendered from the local
clock: at the epoch instant under a UTC+01:00 local zone the code prints
`1970-01-01T01:00:00.000Z`, not the UTC `1970-01-01T00:00:00.000Z`. -/
theorem outputLine_fields_and_end_timestamp :
    (∀ (nodeNumber concurrency : String) (objectSize metaCount metaSize : Int)
        (elapsedStr throughputStr bandwidthStr startStr endStr : String),
      outputLine nodeNumber concurrency objectSize metaCount metaSize
          elapsedStr throughputStr bandwidthStr startStr endStr =
        String.intercalate ";" ["PUT", nodeNumber, concurrency,
          Int.repr objectSize, Int.repr metaCount, Int.repr metaSize,
          elapsedStr, throughputStr, bandwidthStr, startStr, endStr] ++ "\n") ∧
    startTimestampStr 0 = "1970-01-01T00:00:00.000Z" ∧
    endTimestampStr 0 60 = "1970-01-01T01:00:00.000Z" ∧
    endTimestampStr 0 60 ≠ startTimestampStr 0 := by
  refine ⟨?_, by decide, by decide, by decide⟩
  intro nodeNumber concurrency objectSize metaCount metaSize
    elapsedStr throughputStr bandwidthStr startStr endStr
  simp [outputLine, String.intercalate, String.intercalate.go]
